import Mathlib

/-!
Shallow embedding of the authenticated request lifecycle of the
`cookidoo-api` client (`cookidoo_api/cookidoo.py`).

The embedding models one public operation invocation as a pure function of
the client state, the current wall-clock time and the transport outcome of
the single HTTP call the operation performs.  Python-level behaviour is
made explicit:
  * decoded JSON bodies are `Json` values; a body whose `.json()` call
    raises `JSONDecodeError` is `none`;
  * raised library exceptions (`CookidooConfigException`,
    `CookidooAuthException`, `CookidooRequestException`,
    `CookidooParseException`) are `CookidooError` values;
  * Python exceptions that no handler in the source catches (`KeyError`,
    `TypeError`, `AttributeError`, `ValueError`) surface as `PyResult.uncaught`;
  * every `_LOGGER.debug` call is recorded as a `LogEvent`.

The modules `cookidoo_api.const`, `cookidoo_api.types`,
`cookidoo_api.exceptions` and `cookidoo_api.helpers` are not part of the
sources; the few facts needed from them (the authorization header format,
the declared field sets of the TypedDicts, the item `from_json` helpers)
are modelled from the specification and marked as such in doc comments.
-/

namespace CookidooApi

/-- A decoded JSON value, as produced by `await r.json()`. -/
inductive Json where
  | null : Json
  | bool (b : Bool) : Json
  | num (n : Int) : Json
  | str (s : String) : Json
  | arr (elems : List Json) : Json
  | obj (kvs : List (String × Json)) : Json

mutual

def Json.beq : Json → Json → Bool
  | .null, .null => true
  | .bool a, .bool b => a == b
  | .num a, .num b => a == b
  | .str a, .str b => a == b
  | .arr a, .arr b => Json.beqList a b
  | .obj a, .obj b => Json.beqKvs a b
  | _, _ => false

def Json.beqList : List Json → List Json → Bool
  | [], [] => true
  | a :: as_, b :: bs => Json.beq a b && Json.beqList as_ bs
  | _, _ => false

def Json.beqKvs : List (String × Json) → List (String × Json) → Bool
  | [], [] => true
  | (ka, va) :: as_, (kb, vb) :: bs => ka == kb && Json.beq va vb && Json.beqKvs as_ bs
  | _, _ => false

end

mutual

theorem Json.beq_iff : ∀ a b : Json, Json.beq a b = true ↔ a = b
  | .null, b => by cases b <;> simp [Json.beq]
  | .bool x, b => by cases b <;> simp [Json.beq]
  | .num x, b => by cases b <;> simp [Json.beq]
  | .str x, b => by cases b <;> simp [Json.beq]
  | .arr xs, b => by
      cases b <;> simp [Json.beq]
      exact Json.beqList_iff xs _
  | .obj xs, b => by
      cases b <;> simp [Json.beq]
      exact Json.beqKvs_iff xs _

theorem Json.beqList_iff : ∀ a b : List Json, Json.beqList a b = true ↔ a = b
  | [], b => by cases b <;> simp [Json.beqList]
  | x :: xs, b => by
      cases b with
      | nil => simp [Json.beqList]
      | cons y ys =>
          simp [Json.beqList, Bool.and_eq_true]
          exact and_congr (Json.beq_iff x y) (Json.beqList_iff xs ys)

theorem Json.beqKvs_iff : ∀ a b : List (String × Json), Json.beqKvs a b = true ↔ a = b
  | [], b => by cases b <;> simp [Json.beqKvs]
  | (k, v) :: xs, b => by
      cases b with
      | nil => simp [Json.beqKvs]
      | cons y ys =>
          obtain ⟨k2, v2⟩ := y
          simp [Json.beqKvs, Bool.and_eq_true, and_assoc, Prod.ext_iff]
          intro _
          exact and_congr (Json.beq_iff v v2) (Json.beqKvs_iff xs ys)

end

instance : DecidableEq Json := fun a b =>
  decidable_of_iff (Json.beq a b = true) (Json.beq_iff a b)

deriving instance DecidableEq for Except

/-- A Python exception kind that no handler in the source catches. -/
inductive PyExc where
  | keyError : PyExc
  | typeError : PyExc
  | attributeError : PyExc
  | valueError : PyExc
deriving DecidableEq

/-- The four library exception kinds of `cookidoo_api.exceptions` (spec §7):
ConfigError, AuthError, RequestError (optionally carrying the HTTP status of
the `raise_for_status` cause), ParseError.  Messages are the ones raised in
the source. -/
inductive CookidooError where
  | configError (msg : String) : CookidooError
  | authError (msg : String) : CookidooError
  | requestError (status : Option Nat) (msg : String) : CookidooError
  | parseError (msg : String) : CookidooError
deriving DecidableEq

/-- Outcome of executing one operation body: a returned value, a raised
library exception, or a Python exception that escaped every handler. -/
inductive PyResult (α : Type) where
  | ok (a : α) : PyResult α
  | raised (e : CookidooError) : PyResult α
  | uncaught (e : PyExc) : PyResult α
deriving DecidableEq

/-- One `_LOGGER.debug` emission.  `response` is the initial
"Response from url [status]: body" line (with the body string actually
interpolated); `diagDescription` is the 401 diagnostic carrying the parsed
`error_description`; `diagText` is the 400 token-endpoint log carrying the
raw body text; `excTrace` is any `traceback.format_exc()` log. -/
inductive LogEvent where
  | response (status : Nat) (body : String) : LogEvent
  | diagDescription (d : Json) : LogEvent
  | diagText (body : String) : LogEvent
  | excTrace : LogEvent
deriving DecidableEq

/-- The observable parts of one upstream HTTP response: status code, raw
text body, and the decoded JSON (`none` when `.json()` raises
`JSONDecodeError`). -/
structure HttpResponse where
  status : Nat
  text : String
  json : Option Json
deriving DecidableEq

/-- Outcome of the single transport call an operation makes:
`TimeoutError`, an `aiohttp.ClientError`, or a delivered response. -/
inductive Transport where
  | timeout : Transport
  | clientError : Transport
  | response (r : HttpResponse) : Transport
deriving DecidableEq

/-- The mutable session state of a `Cookidoo` instance:
`_api_headers["AUTHORIZATION"]` (absent before the first grant),
`_auth_data`, and the private absolute expiry `__expires_in`
(`none` models the attribute being declared but never assigned). -/
structure ClientState where
  apiAuthHeader : Option String
  authData : Option (List (String × Json))
  expiresAt : Option Int
deriving DecidableEq

/-- The state of a freshly constructed client. -/
def initialState : ClientState := ⟨none, none, none⟩

/-- Result of one operation invocation: the state after the call, the
Python-level outcome, the debug-log events emitted in order, and the
`AUTHORIZATION` header value attached to each HTTP request actually issued
(`none` for the token endpoint, whose `_token_headers` carry no
authorization header). -/
structure StepOut (α : Type) where
  state : ClientState
  result : PyResult α
  log : List LogEvent
  sentHeaders : List (Option String)
deriving DecidableEq

/-- Python `d[k]` on a dict: the value of the first binding of `k`,
`KeyError` when absent. -/
def dictGet (d : List (String × Json)) (k : String) : Except PyExc Json :=
  match d.find? (fun kv => kv.fst == k) with
  | some kv => Except.ok kv.snd
  | none => Except.error PyExc.keyError

/-- Python `j[k]` subscription: dict lookup on objects, `TypeError`
otherwise. -/
def Json.getItem (j : Json) (k : String) : Except PyExc Json :=
  match j with
  | .obj kvs => dictGet kvs k
  | _ => Except.error PyExc.typeError

/-- Python `j.items()`: the key-value pairs of an object in insertion
order, `AttributeError` on any other value. -/
def Json.items (j : Json) : Except PyExc (List (String × Json)) :=
  match j with
  | .obj kvs => Except.ok kvs
  | _ => Except.error PyExc.attributeError

/-- Python truthiness of a decoded JSON value. -/
def Json.truthy (j : Json) : Bool :=
  match j with
  | .null => false
  | .bool b => b
  | .num n => n != 0
  | .str s => s != ""
  | .arr l => !l.isEmpty
  | .obj kvs => !kvs.isEmpty

/-- Python iteration over a decoded JSON value: lists yield their
elements, dicts their keys, strings their characters; other values raise
`TypeError`. -/
def pyIter (j : Json) : Except PyExc (List Json) :=
  match j with
  | .arr l => Except.ok l
  | .obj kvs => Except.ok (kvs.map (fun kv => Json.str kv.fst))
  | .str s => Except.ok (s.data.map (fun c => Json.str (String.mk [c])))
  | _ => Except.error PyExc.typeError

/-- Python `int(x)` on a decoded JSON value (used by the `expires_in`
setter, which accepts `int | str`). -/
def pyToInt (j : Json) : Except PyExc Int :=
  match j with
  | .num n => Except.ok n
  | .str s =>
      match s.toInt? with
      | some n => Except.ok n
      | none => Except.error PyExc.valueError
  | .bool b => Except.ok (if b then 1 else 0)
  | _ => Except.error PyExc.typeError

/-- Python `s.lower()`: every character lower-cased. -/
def pyLower (s : String) : String := String.mk (s.data.map Char.toLower)

/-- Python `s.capitalize()`: first character upper-cased, the rest
lower-cased. -/
def pyCapitalize (s : String) : String :=
  match s.data with
  | [] => ""
  | c :: cs => String.mk (c.toUpper :: cs.map Char.toLower)

/-- Rendering of a value interpolated by `str.format` (only strings occur
on the paths the claims exercise; the other cases make the function
total the way Python string conversion is). -/
def pyFormatArg (j : Json) : String :=
  match j with
  | .str s => s
  | .num n => toString n
  | .bool b => if b then "True" else "False"
  | .null => "None"
  | .arr _ => "[...]"
  | .obj _ => "{...}"

/-- The keyed-allowlist projection used by every record mapping in the
source: `\x7bkey: val for key, val in kvs if key in annotations\x7d`. -/
def projectAllowlist (allow : List String) (kvs : List (String × Json)) :
    List (String × Json) :=
  kvs.filter (fun kv => allow.contains kv.fst)

/-- Modelled from the spec: the declared field set
(`CookidooAuthResponse.__annotations__`) of the auth-response TypedDict
from `cookidoo_api.types`, which is not under src/; spec §3 lists
access_token, refresh_token, token_type, expires_in. -/
def authResponseAnnotations : List String :=
  ["access_token", "refresh_token", "token_type", "expires_in"]

/-- Modelled from the spec: the `AUTHORIZATION_HEADER` format string of
`cookidoo_api.const`, which is not under src/; spec §4.1 derives the
header value as the capitalized token type, a space, and the access
token. -/
def AUTHORIZATION_HEADER (tokenType accessToken : String) : String :=
  tokenType ++ " " ++ accessToken

/-- The `auth_data` property setter (`cookidoo.py` lines 118-125).  The
format arguments of the header are evaluated first (`token_type` then
`access_token`); a `KeyError`/`AttributeError` there leaves the state
unchanged.  The header and `_auth_data` assignments precede the
`expires_in` setter, so a failure converting `expires_in` leaves those
two already replaced.  Returns the state reached and the Python
exception, if any. -/
def setAuthData (st : ClientState) (now : Int) (d : List (String × Json)) :
    ClientState × Option PyExc :=
  match dictGet d "token_type" with
  | Except.error e => (st, some e)
  | Except.ok tt =>
    match tt with
    | Json.str ttS =>
      match dictGet d "access_token" with
      | Except.error e => (st, some e)
      | Except.ok at_ =>
        let header := AUTHORIZATION_HEADER (pyCapitalize (pyLower ttS)) (pyFormatArg at_)
        let st2 : ClientState := { st with apiAuthHeader := some header, authData := some d }
        match dictGet d "expires_in" with
        | Except.error e => (st2, some e)
        | Except.ok exp =>
          match pyToInt exp with
          | Except.error e => (st2, some e)
          | Except.ok n => ({ st2 with expiresAt := some (now + n) }, none)
    | _ => (st, some PyExc.attributeError)

/-- The `expires_in` property read (`cookidoo.py` lines 104-107):
`max(0, __expires_in - int(time.time()))`; reading before any grant hits
the never-assigned private attribute (`AttributeError`). -/
def expiresInProp (st : ClientState) (now : Int) : Except PyExc Int :=
  match st.expiresAt with
  | none => Except.error PyExc.attributeError
  | some e => Except.ok (max 0 (e - now))

/-- `Cookidoo._request_access_token` (`cookidoo.py` lines 189-288) as a
function of state, current time and transport outcome.  The initial debug
log suppresses the body exactly when the status is 200; 401 attempts the
best-effort diagnostic (catching only decode errors — a missing
`error_description` key escapes as `KeyError`) and raises AuthError; 400
raises AuthError; `raise_for_status` turns any status ≥ 400 into a
`ClientError` caught as RequestError; a 2xx body is `.items()`-projected
through the auth-response allowlist and stored via the `auth_data`
setter. -/
def requestAccessToken (st : ClientState) (now : Int) (t : Transport) :
    StepOut (List (String × Json)) :=
  match t with
  | Transport.timeout =>
      ⟨st, PyResult.raised (CookidooError.requestError none
        "Authentication failed due to connection timeout."), [LogEvent.excTrace], [none]⟩
  | Transport.clientError =>
      ⟨st, PyResult.raised (CookidooError.requestError none
        "Authentication failed due to request exception."), [LogEvent.excTrace], [none]⟩
  | Transport.response r =>
    let firstLog := LogEvent.response r.status (if r.status = 200 then "" else r.text)
    if r.status = 401 then
      match r.json with
      | none =>
          ⟨st, PyResult.raised (CookidooError.authError
            "Access token request failed due to authorization failure, please check your email and password or refresh token."),
           [firstLog, LogEvent.excTrace], [none]⟩
      | some j =>
        match j.getItem "error_description" with
        | Except.ok d =>
            ⟨st, PyResult.raised (CookidooError.authError
              "Access token request failed due to authorization failure, please check your email and password or refresh token."),
             [firstLog, LogEvent.diagDescription d], [none]⟩
        | Except.error e => ⟨st, PyResult.uncaught e, [firstLog], [none]⟩
    else if r.status = 400 then
      ⟨st, PyResult.raised (CookidooError.authError
        "Access token request failed due to bad request, please check your email or refresh token."),
       [firstLog, LogEvent.diagText r.text], [none]⟩
    else if 400 ≤ r.status then
      ⟨st, PyResult.raised (CookidooError.requestError (some r.status)
        "Authentication failed due to request exception."),
       [firstLog, LogEvent.excTrace], [none]⟩
    else
      match r.json with
      | none =>
          ⟨st, PyResult.raised (CookidooError.parseError
            "Cannot parse access token request response."),
           [firstLog, LogEvent.excTrace], [none]⟩
      | some j =>
        match j.items with
        | Except.error e => ⟨st, PyResult.uncaught e, [firstLog], [none]⟩
        | Except.ok kvs =>
          let data := projectAllowlist authResponseAnnotations kvs
          match setAuthData st now data with
          | (st2, some e) => ⟨st2, PyResult.uncaught e, [firstLog], [none]⟩
          | (st2, none) => ⟨st2, PyResult.ok data, [firstLog], [none]⟩

/-- `Cookidoo.login` (`cookidoo.py` lines 163-187): builds the password
grant form and delegates to `_request_access_token`. -/
def login (st : ClientState) (now : Int) (t : Transport) :
    StepOut (List (String × Json)) :=
  requestAccessToken st now t

/-- `Cookidoo.refresh_token` (`cookidoo.py` lines 132-161): fails with
ConfigError when `_auth_data` is falsy (no prior successful grant), before
issuing any request; otherwise reads `_auth_data["refresh_token"]` into
the form (a `KeyError` when the held dict lacks it) and delegates to
`_request_access_token`. -/
def refreshToken (st : ClientState) (now : Int) (t : Transport) :
    StepOut (List (String × Json)) :=
  match st.authData with
  | none =>
      ⟨st, PyResult.raised (CookidooError.configError
        "No auth data available, please log in first"), [], []⟩
  | some ad =>
    if ad.isEmpty then
      ⟨st, PyResult.raised (CookidooError.configError
        "No auth data available, please log in first"), [], []⟩
    else
      match dictGet ad "refresh_token" with
      | Except.error e => ⟨st, PyResult.uncaught e, [], []⟩
      | Except.ok _ => requestAccessToken st now t

/-- The messages a non-token endpoint raises with; each source method has
its own wording. -/
structure EndpointMsgs where
  auth : String
  request : String
  timeoutMsg : String
  parse : String

/-- The per-endpoint request execution shared verbatim by every non-token
operation in the source (e.g. `get_user_info`, `cookidoo.py` lines
311-373): log the response with its body; on 401 attempt the best-effort
diagnostic (`except (JSONDecodeError, ClientError)` — a present body
lacking `error_description` escapes as `KeyError`) and raise AuthError;
`raise_for_status` turns status ≥ 400 into RequestError; on a delivered
body run the endpoint's mapping, whose `KeyError` is caught as ParseError
(`except (JSONDecodeError, KeyError)`) while `TypeError`/`AttributeError`
escape.  The single request issued carries the state's `AUTHORIZATION`
header. -/
def apiCall {α : Type} (msgs : EndpointMsgs) (mapper : Json → Except PyExc α)
    (st : ClientState) (t : Transport) : StepOut α :=
  match t with
  | Transport.timeout =>
      ⟨st, PyResult.raised (CookidooError.requestError none msgs.timeoutMsg),
       [LogEvent.excTrace], [st.apiAuthHeader]⟩
  | Transport.clientError =>
      ⟨st, PyResult.raised (CookidooError.requestError none msgs.request),
       [LogEvent.excTrace], [st.apiAuthHeader]⟩
  | Transport.response r =>
    let firstLog := LogEvent.response r.status r.text
    if r.status = 401 then
      match r.json with
      | none =>
          ⟨st, PyResult.raised (CookidooError.authError msgs.auth),
           [firstLog, LogEvent.excTrace], [st.apiAuthHeader]⟩
      | some j =>
        match j.getItem "error_description" with
        | Except.ok d =>
            ⟨st, PyResult.raised (CookidooError.authError msgs.auth),
             [firstLog, LogEvent.diagDescription d], [st.apiAuthHeader]⟩
        | Except.error e => ⟨st, PyResult.uncaught e, [firstLog], [st.apiAuthHeader]⟩
    else if 400 ≤ r.status then
      ⟨st, PyResult.raised (CookidooError.requestError (some r.status) msgs.request),
       [firstLog, LogEvent.excTrace], [st.apiAuthHeader]⟩
    else
      match r.json with
      | none =>
          ⟨st, PyResult.raised (CookidooError.parseError msgs.parse),
           [firstLog, LogEvent.excTrace], [st.apiAuthHeader]⟩
      | some j =>
        match mapper j with
        | Except.ok a => ⟨st, PyResult.ok a, [firstLog], [st.apiAuthHeader]⟩
        | Except.error PyExc.keyError =>
            ⟨st, PyResult.raised (CookidooError.parseError msgs.parse),
             [firstLog, LogEvent.excTrace], [st.apiAuthHeader]⟩
        | Except.error e => ⟨st, PyResult.uncaught e, [firstLog], [st.apiAuthHeader]⟩

/-- The body mapping of `get_user_info` (`cookidoo.py` lines 340-348):
unwrap `["userInfo"]`, `.items()`-project through the user-info field
set.  The declared field set lives in `cookidoo_api.types`
(`CookidooUserInfo.__annotations__`, not under src/), so the mapping is
parameterized by it. -/
def userInfoMapper (fields : List String) (j : Json) :
    Except PyExc (List (String × Json)) := do
  let ui ← j.getItem "userInfo"
  let kvs ← ui.items
  pure (projectAllowlist fields kvs)

/-- `Cookidoo.get_user_info` (`cookidoo.py` lines 290-373). -/
def getUserInfo (fields : List String) (st : ClientState) (t : Transport) :
    StepOut (List (String × Json)) :=
  apiCall
    ⟨"Loading user info failed due to authorization failure, the authorization token is invalid or expired.",
     "Loading user info failed due to request exception.",
     "Loading user info failed due to connection timeout.",
     "Loading user info failed during parsing of request response."⟩
    (userInfoMapper fields) st t

/-- The generator `next((s for s in body if s["active"]), None)` of
`get_active_subscription` (`cookidoo.py` lines 426-433): the first
element whose `"active"` entry is truthy; subscripting an element without
the key raises `KeyError`, a non-object element `TypeError`. -/
def findActive (elems : List Json) : Except PyExc (Option Json) :=
  match elems with
  | [] => Except.ok none
  | e :: rest =>
    match e.getItem "active" with
    | Except.error ex => Except.error ex
    | Except.ok v => if v.truthy then Except.ok (some e) else findActive rest

/-- The body mapping of `get_active_subscription` (`cookidoo.py` lines
425-443): iterate the body, take the first truthy-`active` element; the
walrus `if subscription := ...` then projects a truthy find through the
subscription field set and yields `none` otherwise.  The field set
(`CookidooSubscription.__annotations__`) lives in `cookidoo_api.types`
(not under src/), so the mapping is parameterized by it. -/
def subscriptionMapper (fields : List String) (j : Json) :
    Except PyExc (Option (List (String × Json))) := do
  let elems ← pyIter j
  let found ← findActive elems
  match found with
  | some e =>
    if e.truthy then do
      let kvs ← e.items
      pure (some (projectAllowlist fields kvs))
    else
      pure none
  | none => pure none

/-- `Cookidoo.get_active_subscription` (`cookidoo.py` lines 375-468). -/
def getActiveSubscription (fields : List String) (st : ClientState) (t : Transport) :
    StepOut (Option (List (String × Json))) :=
  apiCall
    ⟨"Loading active subscription failed due to authorization failure, the authorization token is invalid or expired.",
     "Loading active subscription failed due to request exception.",
     "Loading user info failed due to connection timeout.",
     "Loading active subscription failed during parsing of request response."⟩
    (subscriptionMapper fields) st t

/-- The element-wise conversion a list comprehension performs: convert
in order, propagating the first raised exception. -/
def mapExcept {α β : Type} (f : α → Except PyExc β) : List α → Except PyExc (List β)
  | [] => Except.ok []
  | a :: rest => do
    let b ← f a
    let bs ← mapExcept f rest
    pure (b :: bs)

/-- Modelled from the spec: the ingredient-item domain record
(`CookidooIngredientItem` from `cookidoo_api.types`, not under src/);
spec §3 gives id, name, is_owned. -/
structure CookidooIngredientItem where
  id : Json
  name : Json
  is_owned : Json
deriving DecidableEq

/-- Modelled from the spec: the helper
`cookidoo_ingredient_item_from_json` from `cookidoo_api.helpers` (not
under src/); per spec §3 and the §8 example key casing, it reads the
`id`, `name` and `isOwned` entries of the upstream item object. -/
def cookidooIngredientItemFromJson (j : Json) : Except PyExc CookidooIngredientItem := do
  let i ← j.getItem "id"
  let n ← j.getItem "name"
  let o ← j.getItem "isOwned"
  pure ⟨i, n, o⟩

/-- The body mapping of `get_ingredient_items` (`cookidoo.py` lines
684-689): the comprehension over `body["recipes"]` and, per recipe, over
`recipe["recipeIngredientGroups"]`, converting each group entry in
nesting order. -/
def ingredientItemsMapper (j : Json) : Except PyExc (List CookidooIngredientItem) := do
  let recipesJson ← j.getItem "recipes"
  let recipes ← pyIter recipesJson
  let nested ← mapExcept (fun rj => do
    let gJson ← rj.getItem "recipeIngredientGroups"
    let gs ← pyIter gJson
    mapExcept cookidooIngredientItemFromJson gs) recipes
  pure nested.flatten

/-- `Cookidoo.get_ingredient_items` (`cookidoo.py` lines 634-714). -/
def getIngredientItems (st : ClientState) (t : Transport) :
    StepOut (List CookidooIngredientItem) :=
  apiCall
    ⟨"Loading ingredient items failed due to authorization failure, the authorization token is invalid or expired.",
     "Loading ingredient items failed due to request exception.",
     "Loading ingredient items failed due to connection timeout.",
     "Loading ingredient items failed during parsing of request response."⟩
    ingredientItemsMapper st t

/-- Modelled from the spec: the additional-item domain record
(`CookidooAdditionalItem` from `cookidoo_api.types`, not under src/);
spec §3 gives id, name, is_owned. -/
structure CookidooAdditionalItem where
  id : Json
  name : Json
  is_owned : Json
deriving DecidableEq

/-- Modelled from the spec: the helper
`cookidoo_additional_item_from_json` from `cookidoo_api.helpers` (not
under src/); the §8 example maps an upstream
`id`/`name`/`isOwned` object to AdditionalItem(id, name, is_owned). -/
def cookidooAdditionalItemFromJson (j : Json) : Except PyExc CookidooAdditionalItem := do
  let i ← j.getItem "id"
  let n ← j.getItem "name"
  let o ← j.getItem "isOwned"
  pure ⟨i, n, o⟩

/-- The body mapping of `get_additional_items` (`cookidoo.py` lines
1020-1026): convert each element of `body["additionalItems"]`. -/
def additionalItemsMapper (j : Json) : Except PyExc (List CookidooAdditionalItem) := do
  let itemsJson ← j.getItem "additionalItems"
  let items ← pyIter itemsJson
  mapExcept cookidooAdditionalItemFromJson items

/-- `Cookidoo.get_additional_items` (`cookidoo.py` lines 970-1051). -/
def getAdditionalItems (st : ClientState) (t : Transport) :
    StepOut (List CookidooAdditionalItem) :=
  apiCall
    ⟨"Loading additional items failed due to authorization failure, the authorization token is invalid or expired.",
     "Loading additional items failed due to request exception.",
     "Loading additional items failed due to connection timeout.",
     "Loading additional items failed during parsing of request response."⟩
    additionalItemsMapper st t

/-- Whether a result is a raised RequestError. -/
def PyResult.isRequestError {α : Type} : PyResult α → Bool
  | PyResult.raised (CookidooError.requestError _ _) => true
  | _ => false

/-- Whether a result is a raised ParseError. -/
def PyResult.isParseError {α : Type} : PyResult α → Bool
  | PyResult.raised (CookidooError.parseError _) => true
  | _ => false

/-- Whether a result is a raised AuthError. -/
def PyResult.isAuthError {α : Type} : PyResult α → Bool
  | PyResult.raised (CookidooError.authError _) => true
  | _ => false

/-- The key-value list of an object, `[]` on other values (spec-side
accessor used to phrase mapper round-trips). -/
def Json.objKvs (j : Json) : List (String × Json) :=
  match j with
  | .obj kvs => kvs
  | _ => []

/-- Spec-side: the `active` entry of a subscription element, when the
element is an object carrying one. -/
def activeEntry (e : Json) : Option Json :=
  match e with
  | .obj kvs => (kvs.find? (fun kv => kv.fst == "active")).map Prod.snd
  | _ => none

/-- Spec-side: the element is an object whose `active` entry is a JSON
boolean. -/
def hasBoolActive (e : Json) : Bool :=
  match activeEntry e with
  | some (Json.bool _) => true
  | _ => false

/-- Spec-side, following the claim's words: the first element of the
subscription array whose `active` field is `true`. -/
def specFirstActive (elems : List Json) : Option Json :=
  elems.find? (fun e => activeEntry e == some (Json.bool true))

/-- Spec-side: the `recipeIngredientGroups` array of a recipe element,
when the element is an object carrying one. -/
def recipeGroups (rj : Json) : Option (List Json) :=
  match rj with
  | .obj kvs =>
    match (kvs.find? (fun kv => kv.fst == "recipeIngredientGroups")).map Prod.snd with
    | some (Json.arr gs) => some gs
    | _ => none
  | _ => none

/-- Spec-side: the recipe element is an object with a
`recipeIngredientGroups` array all of whose entries convert to
ingredient items. -/
def recipeShapeOk (rj : Json) : Bool :=
  match recipeGroups rj with
  | some gs =>
      gs.all (fun g =>
        match cookidooIngredientItemFromJson g with
        | Except.ok _ => true
        | Except.error _ => false)
  | none => false

/-- Spec-side, following the claim's words: the two-level flattening of
`recipes[].recipeIngredientGroups[]` in nesting order — outer recipe
order first, then inner group order. -/
def specFlattenIngredients (rs : List Json) : List CookidooIngredientItem :=
  (rs.map (fun rj =>
    ((recipeGroups rj).getD []).filterMap
      (fun g => (cookidooIngredientItemFromJson g).toOption))).flatten

/-- Inversion of a fully successful `auth_data` setter run: the stored
dict has a string `token_type`, an `access_token` and a convertible
`expires_in`, and the state reached holds the derived header, the dict
and the absolute expiry. -/
theorem setAuthData_ok_inv (st : ClientState) (now : Int) (d : List (String × Json))
    (st2 : ClientState) (h : setAuthData st now d = (st2, none)) :
    ∃ tt at_ exp nn,
      dictGet d "token_type" = Except.ok (Json.str tt) ∧
      dictGet d "access_token" = Except.ok at_ ∧
      dictGet d "expires_in" = Except.ok exp ∧
      pyToInt exp = Except.ok nn ∧
      st2 = ⟨some (AUTHORIZATION_HEADER (pyCapitalize (pyLower tt)) (pyFormatArg at_)),
             some d, some (now + nn)⟩ := by
  unfold setAuthData at h
  split at h
  · exact absurd (congrArg Prod.snd h) (by simp)
  · rename_i tt htt
    split at h
    · rename_i ttS
      split at h
      · exact absurd (congrArg Prod.snd h) (by simp)
      · rename_i at_ hat
        split at h
        · exact absurd (congrArg Prod.snd h) (by simp)
        · rename_i exp hexp
          split at h
          · exact absurd (congrArg Prod.snd h) (by simp)
          · rename_i nn hnn
            refine ⟨ttS, at_, exp, nn, htt, hat, hexp, hnn, ?_⟩
            have := congrArg Prod.fst h
            simp at this
            exact this.symm
    · exact absurd (congrArg Prod.snd h) (by simp)

/-- Inversion of a successful token grant: the transport delivered a
response, the returned dict is the allowlist projection of its body, and
the state reached is the one computed by the `auth_data` setter. -/
theorem requestAccessToken_ok_inv (st : ClientState) (now : Int) (t : Transport)
    (d : List (String × Json))
    (h : (requestAccessToken st now t).result = PyResult.ok d) :
    ∃ tt at_ exp nn,
      dictGet d "token_type" = Except.ok (Json.str tt) ∧
      dictGet d "access_token" = Except.ok at_ ∧
      dictGet d "expires_in" = Except.ok exp ∧
      pyToInt exp = Except.ok nn ∧
      (requestAccessToken st now t).state =
        ⟨some (AUTHORIZATION_HEADER (pyCapitalize (pyLower tt)) (pyFormatArg at_)),
         some d, some (now + nn)⟩ := by
  cases t with
  | timeout => simp [requestAccessToken] at h
  | clientError => simp [requestAccessToken] at h
  | response r =>
    by_cases h401 : r.status = 401
    · cases hj : r.json with
      | none => simp [requestAccessToken, h401, hj] at h
      | some j =>
        cases hgi : j.getItem "error_description" with
        | ok dd => simp [requestAccessToken, h401, hj, hgi] at h
        | error e => simp [requestAccessToken, h401, hj, hgi] at h
    · by_cases h400 : r.status = 400
      · simp [requestAccessToken, h401, h400] at h
      · by_cases hge : 400 ≤ r.status
        · simp [requestAccessToken, h401, h400, hge] at h
        · cases hj : r.json with
          | none => simp [requestAccessToken, h401, h400, hge, hj] at h
          | some j =>
            cases hitems : j.items with
            | error e => simp [requestAccessToken, h401, h400, hge, hj, hitems] at h
            | ok kvs =>
              cases hset : setAuthData st now (projectAllowlist authResponseAnnotations kvs) with
              | mk st2 oe =>
                cases oe with
                | some e => simp [requestAccessToken, h401, h400, hge, hj, hitems, hset] at h
                | none =>
                  simp [requestAccessToken, h401, h400, hge, hj, hitems, hset] at h
                  obtain ⟨tt, at_, exp, nn, h1, h2, h3, h4, h5⟩ :=
                    setAuthData_ok_inv st now _ st2 hset
                  rw [h] at h1 h2 h3 h5
                  refine ⟨tt, at_, exp, nn, h1, h2, h3, h4, ?_⟩
                  simp [requestAccessToken, h401, h400, hge, hj, hitems, hset, h5]

/-- Every raising path of the token grant leaves the session state
untouched: the state is replaced only by the `auth_data` setter after a
delivered 2xx body has been projected. -/
theorem requestAccessToken_raised_state (st : ClientState) (now : Int) (t : Transport)
    (e : CookidooError)
    (h : (requestAccessToken st now t).result = PyResult.raised e) :
    (requestAccessToken st now t).state = st := by
  cases t with
  | timeout => simp [requestAccessToken]
  | clientError => simp [requestAccessToken]
  | response r =>
    by_cases h401 : r.status = 401
    · cases hj : r.json with
      | none => simp [requestAccessToken, h401, hj]
      | some j =>
        cases hgi : j.getItem "error_description" with
        | ok dd => simp [requestAccessToken, h401, hj, hgi]
        | error e => simp [requestAccessToken, h401, hj, hgi] at h
    · by_cases h400 : r.status = 400
      · simp [requestAccessToken, h401, h400]
      · by_cases hge : 400 ≤ r.status
        · simp [requestAccessToken, h401, h400, hge]
        · cases hj : r.json with
          | none => simp [requestAccessToken, h401, h400, hge, hj]
          | some j =>
            cases hitems : j.items with
            | error e => simp [requestAccessToken, h401, h400, hge, hj, hitems] at h
            | ok kvs =>
              cases hset : setAuthData st now (projectAllowlist authResponseAnnotations kvs) with
              | mk st2 oe =>
                cases oe with
                | some e => simp [requestAccessToken, h401, h400, hge, hj, hitems, hset] at h
                | none => simp [requestAccessToken, h401, h400, hge, hj, hitems, hset] at h

/-- The token body of the worked example in the specification:
access_token "AT", refresh_token "RT", token_type "bearer",
expires_in 3600. -/
def exampleTokenBody : List (String × Json) :=
  [("access_token", Json.str "AT"), ("refresh_token", Json.str "RT"),
   ("token_type", Json.str "bearer"), ("expires_in", Json.num 3600)]

/-- C1: claims that HTTP 401 always raises AuthError even when the
diagnostic extraction fails.  The code violates this: a 401 body that
parses to a JSON object lacking `error_description` makes the diagnostic
subscription raise a `KeyError` that no handler catches (only
`JSONDecodeError`/`ClientError` are), so the token grant and
`get_user_info` escape with `KeyError` instead of AuthError; only the
unparsable-JSON 401 body keeps the AuthError kind. -/
theorem claim_C1 :
    (requestAccessToken initialState 0
      (Transport.response ⟨401, "x", some (Json.obj [("error", Json.str "invalid_grant")])⟩)).result
      = PyResult.uncaught PyExc.keyError ∧
    (getUserInfo [] initialState
      (Transport.response ⟨401, "x", some (Json.obj [("error", Json.str "invalid_grant")])⟩)).result
      = PyResult.uncaught PyExc.keyError ∧
    (requestAccessToken initialState 0 (Transport.response ⟨401, "x", none⟩)).result
      = PyResult.raised (CookidooError.authError
          "Access token request failed due to authorization failure, please check your email and password or refresh token.") ∧
    (getUserInfo [] initialState (Transport.response ⟨401, "x", none⟩)).result
      = PyResult.raised (CookidooError.authError
          "Loading user info failed due to authorization failure, the authorization token is invalid or expired.") :=
  ⟨rfl, rfl, rfl, rfl⟩

/-- C2: the claim extends "fails with RequestError" to every non-2xx
status other than 401, but `raise_for_status` only raises for statuses
≥ 400: a delivered 304 on a non-token endpoint flows into body parsing
and fails with ParseError, not RequestError. -/
theorem claim_C2_counterexample :
    ((getUserInfo [] initialState (Transport.response ⟨304, "", none⟩)).result.isRequestError
      = false) ∧
    (getUserInfo [] initialState (Transport.response ⟨304, "", none⟩)).result
      = PyResult.raised (CookidooError.parseError
          "Loading user info failed during parsing of request response.") :=
  ⟨rfl, rfl⟩

/-- C2 (amended): an HTTP 400 from the token endpoint fails with
AuthError, while any status ≥ 400 other than 401 on a non-token endpoint
(and any such status other than 400 and 401 on the token endpoint) fails
with RequestError carrying the status; statuses below 400 are not
classified as errors by status. -/
theorem claim_C2 (st : ClientState) (now : Int) (r : HttpResponse) (fields : List String)
    (h1 : 400 ≤ r.status) (h2 : r.status ≠ 401) :
    (requestAccessToken st now (Transport.response r)).result =
      (if r.status = 400 then
        PyResult.raised (CookidooError.authError
          "Access token request failed due to bad request, please check your email or refresh token.")
      else
        PyResult.raised (CookidooError.requestError (some r.status)
          "Authentication failed due to request exception.")) ∧
    (getUserInfo fields st (Transport.response r)).result =
      PyResult.raised (CookidooError.requestError (some r.status)
        "Loading user info failed due to request exception.") := by
  constructor
  · by_cases h400 : r.status = 400
    · simp [requestAccessToken, h2, h400]
    · simp [requestAccessToken, h2, h400, h1]
  · simp [getUserInfo, apiCall, h2, h1]

/-- C2 witness: the amended classification evaluated at a concrete 400
response. -/
theorem claim_C2_witness :
    ((400 ≤ 400 ∧ (400 : Nat) ≠ 401) ∧
      ((requestAccessToken initialState 0 (Transport.response ⟨400, "", none⟩)).result =
        (if (HttpResponse.mk 400 "" none).status = 400 then
          PyResult.raised (CookidooError.authError
            "Access token request failed due to bad request, please check your email or refresh token.")
        else
          PyResult.raised (CookidooError.requestError (some (HttpResponse.mk 400 "" none).status)
            "Authentication failed due to request exception.")) ∧
      (getUserInfo [] initialState (Transport.response ⟨400, "", none⟩)).result =
        PyResult.raised (CookidooError.requestError (some (HttpResponse.mk 400 "" none).status)
          "Loading user info failed due to request exception."))) :=
  ⟨⟨by decide, by decide⟩,
   claim_C2 initialState 0 ⟨400, "", none⟩ [] (by decide) (by decide)⟩

/-- C3: `refresh_token` with no stored auth data raises ConfigError with
the state untouched, no log emission and no request issued, identically
for every transport outcome. -/
theorem claim_C3 (st : ClientState) (now : Int) (t : Transport)
    (h : st.authData = none) :
    refreshToken st now t =
      ⟨st, PyResult.raised (CookidooError.configError
        "No auth data available, please log in first"), [], []⟩ := by
  simp [refreshToken, h]

/-- C3 witness: the fresh client refreshing against a timing-out
transport. -/
theorem claim_C3_witness :
    initialState.authData = none ∧
    refreshToken initialState 0 Transport.timeout =
      ⟨initialState, PyResult.raised (CookidooError.configError
        "No auth data available, please log in first"), [], []⟩ :=
  ⟨rfl, claim_C3 initialState 0 Transport.timeout rfl⟩

/-- C4: the `expires_in` property reads `max 0 (absolute_expiry - now)`,
hence is never negative and non-increasing in the clock value; and
immediately after a successful grant that stored a server-provided
`expires_in` of `n ≥ 0` seconds it equals `n`. -/
theorem claim_C4 (st : ClientState) (e now now2 : Int) (he : st.expiresAt = some e)
    (st1 : ClientState) (now0 n : Int) (t : Transport) (d : List (String × Json))
    (hok : (requestAccessToken st1 now0 t).result = PyResult.ok d)
    (hexp : dictGet d "expires_in" = Except.ok (Json.num n)) (hn : 0 ≤ n) :
    expiresInProp st now = Except.ok (max 0 (e - now)) ∧
    (∀ v, expiresInProp st now = Except.ok v → 0 ≤ v) ∧
    (now ≤ now2 → ∀ v v2, expiresInProp st now = Except.ok v →
      expiresInProp st now2 = Except.ok v2 → v2 ≤ v) ∧
    expiresInProp (requestAccessToken st1 now0 t).state now0 = Except.ok n := by
  obtain ⟨tt, at_, exp, nn, h1, h2, h3, h4, h5⟩ := requestAccessToken_ok_inv st1 now0 t d hok
  have hexp2 : exp = Json.num n := by
    rw [h3] at hexp
    exact (Except.ok.injEq _ _ ▸ hexp :)
  have hnn : nn = n := by
    subst hexp2
    simp [pyToInt] at h4
    exact h4.symm
  refine ⟨by simp [expiresInProp, he], ?_, ?_, ?_⟩
  · intro v hv
    simp [expiresInProp, he] at hv
    omega
  · intro h12 v v2 hv hv2
    simp [expiresInProp, he] at hv hv2
    omega
  · rw [h5]
    subst hnn
    simp [expiresInProp]
    omega

/-- C4 witness: the worked-example grant (200 body with expires_in 3600)
performed at clock 1000, with the property also read on a state expiring
at 100 from clocks 40 and 60. -/
theorem claim_C4_witness :
    ((ClientState.mk none none (some 100)).expiresAt = some 100 ∧
      (requestAccessToken initialState 1000
        (Transport.response ⟨200, "", some (Json.obj exampleTokenBody)⟩)).result =
        PyResult.ok exampleTokenBody ∧
      dictGet exampleTokenBody "expires_in" = Except.ok (Json.num 3600) ∧
      (0 : Int) ≤ 3600) ∧
    (expiresInProp (ClientState.mk none none (some 100)) 40 = Except.ok (max 0 (100 - 40)) ∧
      (∀ v, expiresInProp (ClientState.mk none none (some 100)) 40 = Except.ok v → 0 ≤ v) ∧
      ((40 : Int) ≤ 60 → ∀ v v2,
        expiresInProp (ClientState.mk none none (some 100)) 40 = Except.ok v →
        expiresInProp (ClientState.mk none none (some 100)) 60 = Except.ok v2 → v2 ≤ v) ∧
      expiresInProp (requestAccessToken initialState 1000
        (Transport.response ⟨200, "", some (Json.obj exampleTokenBody)⟩)).state 1000 =
        Except.ok 3600) :=
  ⟨⟨rfl, by decide, by decide, by decide⟩,
   claim_C4 (ClientState.mk none none (some 100)) 100 40 60 rfl initialState 1000 3600
     (Transport.response ⟨200, "", some (Json.obj exampleTokenBody)⟩) exampleTokenBody
     (by decide) (by decide) (by decide)⟩

/-- C5: the claim says a JSON object missing a required field of the
target record fails with ParseError, but the keyed-allowlist projection
never checks presence: a 200 `get_user_info` body whose `userInfo` object
lacks the required field entirely is returned as a successful (empty)
projection, not a ParseError. -/
theorem claim_C5_counterexample :
    (getUserInfo ["username"] initialState
      (Transport.response ⟨200, "",
        some (Json.obj [("userInfo", Json.obj [("unknown", Json.num 1)])])⟩)).result
      = PyResult.ok [] ∧
    ((getUserInfo ["username"] initialState
      (Transport.response ⟨200, "",
        some (Json.obj [("userInfo", Json.obj [("unknown", Json.num 1)])])⟩)).result.isParseError
      = false) :=
  ⟨rfl, rfl⟩

/-- C5 (amended): on a 2xx object body the projection keeps exactly the
keys in the record's declared field set (unknown upstream fields are
dropped, known ones kept with their values); a missing required field
does not raise ParseError — the operation succeeds with the field simply
absent from the result. -/
theorem claim_C5 (fields : List String) (st : ClientState) (r : HttpResponse)
    (ui : List (String × Json))
    (hs1 : 200 ≤ r.status) (hs2 : r.status < 300)
    (hj : r.json = some (Json.obj [("userInfo", Json.obj ui)])) :
    (getUserInfo fields st (Transport.response r)).result =
      PyResult.ok (projectAllowlist fields ui) ∧
    (∀ k v, (k, v) ∈ projectAllowlist fields ui → k ∈ fields ∧ (k, v) ∈ ui) ∧
    (∀ k v, (k, v) ∈ ui → k ∈ fields → (k, v) ∈ projectAllowlist fields ui) := by
  have h401 : ¬(r.status = 401) := by omega
  have hge : ¬(400 ≤ r.status) := by omega
  refine ⟨?_, ?_, ?_⟩
  · simp [getUserInfo, apiCall, h401, hge, hj, userInfoMapper, Json.getItem, dictGet,
      Json.items, List.find?, Bind.bind, Except.bind, Functor.map, Except.map,
      Pure.pure, Except.pure]
  · intro k v hkv
    have h2 : (k, v) ∈ ui ∧ k ∈ fields := by
      simpa [projectAllowlist, List.mem_filter] using hkv
    exact ⟨h2.2, h2.1⟩
  · intro k v hkv hk
    simp [projectAllowlist, List.mem_filter, hkv, hk]

/-- C5 witness: a user-info object with one known and one unknown key,
projected through the field set containing only the known key. -/
theorem claim_C5_witness :
    ((200 : Nat) ≤ 200 ∧ (200 : Nat) < 300 ∧
      (HttpResponse.mk 200 ""
        (some (Json.obj [("userInfo",
          Json.obj [("username", Json.str "u"), ("extra", Json.num 7)])]))).json =
        some (Json.obj [("userInfo",
          Json.obj [("username", Json.str "u"), ("extra", Json.num 7)])])) ∧
    ((getUserInfo ["username"] initialState
      (Transport.response ⟨200, "",
        some (Json.obj [("userInfo",
          Json.obj [("username", Json.str "u"), ("extra", Json.num 7)])])⟩)).result =
      PyResult.ok (projectAllowlist ["username"]
        [("username", Json.str "u"), ("extra", Json.num 7)]) ∧
    (∀ k v, (k, v) ∈ projectAllowlist ["username"]
        [("username", Json.str "u"), ("extra", Json.num 7)] →
      k ∈ ["username"] ∧ (k, v) ∈ [("username", Json.str "u"), ("extra", Json.num 7)]) ∧
    (∀ k v, (k, v) ∈ [("username", Json.str "u"), ("extra", Json.num 7)] →
      k ∈ ["username"] → (k, v) ∈ projectAllowlist ["username"]
        [("username", Json.str "u"), ("extra", Json.num 7)])) :=
  ⟨⟨by decide, by decide, rfl⟩,
   claim_C5 ["username"] initialState
     ⟨200, "", some (Json.obj [("userInfo",
       Json.obj [("username", Json.str "u"), ("extra", Json.num 7)])])⟩
     [("username", Json.str "u"), ("extra", Json.num 7)]
     (by decide) (by decide) rfl⟩

/-- An element carrying any `active` entry is an object with that entry
reachable by subscription, and is Python-truthy. -/
theorem getItem_active_of_activeEntry (e : Json) (v : Json)
    (h : activeEntry e = some v) :
    e.getItem "active" = Except.ok v ∧ e.truthy = true := by
  cases e <;> simp [activeEntry] at h
  rename_i kvs
  cases hf : kvs.find? (fun kv => kv.fst == "active") with
  | none => rw [hf] at h; simp at h
  | some kv =>
    rw [hf] at h
    simp at h
    obtain ⟨a, ha⟩ := h
    constructor
    · simp [Json.getItem, dictGet, hf, ha]
    · cases kvs with
      | nil => simp [List.find?] at hf
      | cons b bs => simp [Json.truthy]

/-- The element carries a boolean `active` entry exactly when
`hasBoolActive` says so. -/
theorem hasBoolActive_iff (e : Json) :
    hasBoolActive e = true ↔ ∃ b, activeEntry e = some (Json.bool b) := by
  unfold hasBoolActive
  split
  · rename_i b heq
    simp [heq]
  · rename_i hne
    simp only [Bool.false_eq_true, false_iff, not_exists]
    intro b hb
    exact absurd rfl (by rw [hb] at hne; exact fun h => hne b h)

/-- On an array whose elements all carry boolean `active` entries, the
source generator agrees with the spec-side "first element whose active
field is true". -/
theorem findActive_eq_spec (elems : List Json)
    (h : elems.all hasBoolActive = true) :
    findActive elems = Except.ok (specFirstActive elems) := by
  induction elems with
  | nil => simp [findActive, specFirstActive, List.find?]
  | cons e rest ih =>
    simp only [List.all_cons, Bool.and_eq_true] at h
    obtain ⟨he, hrest⟩ := h
    obtain ⟨b, hb⟩ := (hasBoolActive_iff e).mp he
    obtain ⟨hgi, _⟩ := getItem_active_of_activeEntry e _ hb
    cases b with
    | true =>
      simp [findActive, hgi, Json.truthy, specFirstActive, List.find?_cons, hb]
    | false =>
      simp [findActive, hgi, Json.truthy, specFirstActive, List.find?_cons, hb,
        ih hrest, specFirstActive]

/-- The body mapping of `get_active_subscription` on an array of
boolean-`active` objects equals the spec-side projection of the first
active element. -/
theorem subscriptionMapper_eq_spec (fields : List String) (elems : List Json)
    (h : elems.all hasBoolActive = true) :
    subscriptionMapper fields (Json.arr elems) =
      Except.ok ((specFirstActive elems).map
        (fun e => projectAllowlist fields e.objKvs)) := by
  unfold subscriptionMapper
  rw [show pyIter (Json.arr elems) = Except.ok elems from rfl]
  simp only [Bind.bind, Except.bind, findActive_eq_spec elems h]
  cases hf : specFirstActive elems with
  | none => simp [Pure.pure, Except.pure]
  | some e =>
    have hpred := List.find?_some hf
    have hae : activeEntry e = some (Json.bool true) := by
      simpa using hpred
    obtain ⟨hgi, htr⟩ := getItem_active_of_activeEntry e _ hae
    have hobj : ∃ kvs, e = Json.obj kvs := by
      cases e <;> simp [activeEntry] at hae
      exact ⟨_, rfl⟩
    obtain ⟨kvs, hkvs⟩ := hobj
    subst hkvs
    simp [htr, Json.items, Json.objKvs, Bind.bind, Except.bind, Pure.pure, Except.pure]

/-- C6: on a 2xx array body whose elements carry boolean `active`
fields, `get_active_subscription` returns the allowlist projection of
the first element whose `active` is true, and `none` (not an error)
when no element is active — including the empty array. -/
theorem claim_C6 (fields : List String) (st : ClientState) (r : HttpResponse)
    (elems : List Json) (hs1 : 200 ≤ r.status) (hs2 : r.status < 300)
    (hj : r.json = some (Json.arr elems)) (hb : elems.all hasBoolActive = true) :
    (getActiveSubscription fields st (Transport.response r)).result =
      PyResult.ok ((specFirstActive elems).map
        (fun e => projectAllowlist fields e.objKvs)) := by
  have h401 : ¬(r.status = 401) := by omega
  have hge : ¬(400 ≤ r.status) := by omega
  simp [getActiveSubscription, apiCall, h401, hge, hj,
    subscriptionMapper_eq_spec fields elems hb]

/-- C6 witness: an array with an inactive first element and an active
second element carrying an unknown key, and the empty array. -/
theorem claim_C6_witness :
    ((200 : Nat) ≤ 200 ∧ (200 : Nat) < 300 ∧
      (HttpResponse.mk 200 "" (some (Json.arr
        [Json.obj [("active", Json.bool false), ("type", Json.str "TRIAL")],
         Json.obj [("active", Json.bool true), ("type", Json.str "FULL"),
                   ("unknown", Json.num 3)]]))).json =
        some (Json.arr
          [Json.obj [("active", Json.bool false), ("type", Json.str "TRIAL")],
           Json.obj [("active", Json.bool true), ("type", Json.str "FULL"),
                     ("unknown", Json.num 3)]]) ∧
      ([Json.obj [("active", Json.bool false), ("type", Json.str "TRIAL")],
        Json.obj [("active", Json.bool true), ("type", Json.str "FULL"),
                  ("unknown", Json.num 3)]].all hasBoolActive = true)) ∧
    (getActiveSubscription ["active", "type"] initialState
      (Transport.response ⟨200, "", some (Json.arr
        [Json.obj [("active", Json.bool false), ("type", Json.str "TRIAL")],
         Json.obj [("active", Json.bool true), ("type", Json.str "FULL"),
                   ("unknown", Json.num 3)]])⟩)).result =
      PyResult.ok ((specFirstActive
        [Json.obj [("active", Json.bool false), ("type", Json.str "TRIAL")],
         Json.obj [("active", Json.bool true), ("type", Json.str "FULL"),
                   ("unknown", Json.num 3)]]).map
        (fun e => projectAllowlist ["active", "type"] e.objKvs)) :=
  ⟨⟨by decide, by decide, rfl, by decide⟩,
   claim_C6 ["active", "type"] initialState
     ⟨200, "", some (Json.arr
       [Json.obj [("active", Json.bool false), ("type", Json.str "TRIAL")],
        Json.obj [("active", Json.bool true), ("type", Json.str "FULL"),
                  ("unknown", Json.num 3)]])⟩
     [Json.obj [("active", Json.bool false), ("type", Json.str "TRIAL")],
      Json.obj [("active", Json.bool true), ("type", Json.str "FULL"),
                ("unknown", Json.num 3)]]
     (by decide) (by decide) rfl (by decide)⟩

/-- Reduction of an `Except` bind on an already successful value. -/
theorem exceptBind_ok {α β : Type} (a : α) (f : α → Except PyExc β) :
    (Except.ok a >>= f) = f a := rfl

/-- When every entry of a group list converts, the conversion
comprehension succeeds and yields the conversions in order. -/
theorem mapExcept_fromJson_ok (gs : List Json)
    (h : gs.all (fun g =>
      match cookidooIngredientItemFromJson g with
      | Except.ok _ => true
      | Except.error _ => false) = true) :
    mapExcept cookidooIngredientItemFromJson gs =
      Except.ok (gs.filterMap (fun g => (cookidooIngredientItemFromJson g).toOption)) := by
  induction gs with
  | nil => simp [mapExcept]
  | cons g rest ih =>
    simp only [List.all_cons, Bool.and_eq_true] at h
    obtain ⟨hg, hrest⟩ := h
    cases hc : cookidooIngredientItemFromJson g with
    | error e => rw [hc] at hg; simp at hg
    | ok item =>
      simp [mapExcept, hc, ih hrest, Except.toOption, Bind.bind, Except.bind,
        Pure.pure, Except.pure, List.filterMap_cons]

/-- A recipe element accepted by `recipeShapeOk` exposes its group array
through the subscription the comprehension performs. -/
theorem recipeGroups_getItem (rj : Json) (gs : List Json)
    (h : recipeGroups rj = some gs) :
    rj.getItem "recipeIngredientGroups" = Except.ok (Json.arr gs) := by
  cases rj <;> simp [recipeGroups] at h
  rename_i kvs
  cases hf2 : kvs.find? (fun kv => kv.fst == "recipeIngredientGroups") with
  | none => rw [hf2] at h; simp at h
  | some kv =>
    rw [hf2] at h
    obtain ⟨k2, v2⟩ := kv
    cases v2 <;> simp at h
    simp [Json.getItem, dictGet, hf2, h]

/-- The per-recipe body of the comprehension of `get_ingredient_items`
on a shape-correct recipe element. -/
theorem recipeShapeOk_inv (rj : Json) (h : recipeShapeOk rj = true) :
    (do
      let gJson ← rj.getItem "recipeIngredientGroups"
      let gs ← pyIter gJson
      mapExcept cookidooIngredientItemFromJson gs) =
      Except.ok (((recipeGroups rj).getD []).filterMap
        (fun g => (cookidooIngredientItemFromJson g).toOption)) := by
  unfold recipeShapeOk at h
  cases hr : recipeGroups rj with
  | none => rw [hr] at h; simp at h
  | some gs =>
    rw [hr] at h
    rw [recipeGroups_getItem rj gs hr]
    simp only [Bind.bind, Except.bind, pyIter, Option.getD_some, hr]
    exact mapExcept_fromJson_ok gs h

/-- The full comprehension of `get_ingredient_items` on a body whose
recipes are all shape-correct equals the spec-side two-level flatten. -/
theorem ingredientItemsMapper_eq_spec (rs : List Json)
    (h : rs.all recipeShapeOk = true) :
    ingredientItemsMapper (Json.obj [("recipes", Json.arr rs)]) =
      Except.ok (specFlattenIngredients rs) := by
  have hmap : ∀ rs2 : List Json, rs2.all recipeShapeOk = true →
      mapExcept (fun rj => do
        let gJson ← rj.getItem "recipeIngredientGroups"
        let gs ← pyIter gJson
        mapExcept cookidooIngredientItemFromJson gs) rs2 =
      Except.ok (rs2.map (fun rj => ((recipeGroups rj).getD []).filterMap
        (fun g => (cookidooIngredientItemFromJson g).toOption))) := by
    intro rs2
    induction rs2 with
    | nil => intro _; simp [mapExcept]
    | cons rj rest ih =>
      intro h2
      simp only [List.all_cons, Bool.and_eq_true] at h2
      obtain ⟨hrj, hrest⟩ := h2
      simp only [mapExcept]
      rw [recipeShapeOk_inv rj hrj, exceptBind_ok, ih hrest, exceptBind_ok]
      simp [Pure.pure, Except.pure]
  unfold ingredientItemsMapper
  rw [show (Json.obj [("recipes", Json.arr rs)]).getItem "recipes"
      = Except.ok (Json.arr rs) from rfl]
  rw [exceptBind_ok]
  rw [show pyIter (Json.arr rs) = Except.ok rs from rfl]
  rw [exceptBind_ok]
  rw [hmap rs h, exceptBind_ok]
  simp [Pure.pure, Except.pure, specFlattenIngredients]

/-- When every group entry converts, the projected group list keeps its
length. -/
theorem filterMap_length_of_shape (gs : List Json)
    (h : gs.all (fun g =>
      match cookidooIngredientItemFromJson g with
      | Except.ok _ => true
      | Except.error _ => false) = true) :
    (gs.filterMap (fun g => (cookidooIngredientItemFromJson g).toOption)).length
      = gs.length := by
  induction gs with
  | nil => simp
  | cons g rest ih =>
    simp only [List.all_cons, Bool.and_eq_true] at h
    obtain ⟨hg, hrest⟩ := h
    cases hc : cookidooIngredientItemFromJson g with
    | error e => rw [hc] at hg; simp at hg
    | ok item =>
      rw [List.filterMap_cons]
      rw [show (cookidooIngredientItemFromJson g).toOption = some item by
        rw [hc]; rfl]
      simp only [List.length_cons, ih hrest]

/-- The spec-side flatten of shape-correct recipes has as many items as
the sum of the group counts. -/
theorem specFlattenIngredients_length (rs : List Json)
    (h : rs.all recipeShapeOk = true) :
    (specFlattenIngredients rs).length
      = (rs.map (fun rj => ((recipeGroups rj).getD []).length)).sum := by
  induction rs with
  | nil => simp [specFlattenIngredients]
  | cons rj rest ih =>
    simp only [List.all_cons, Bool.and_eq_true] at h
    obtain ⟨hrj, hrest⟩ := h
    have hgs : ∃ gs, recipeGroups rj = some gs ∧ gs.all (fun g =>
        match cookidooIngredientItemFromJson g with
        | Except.ok _ => true
        | Except.error _ => false) = true := by
      unfold recipeShapeOk at hrj
      cases hr : recipeGroups rj with
      | none => rw [hr] at hrj; simp at hrj
      | some gs => rw [hr] at hrj; exact ⟨gs, rfl, hrj⟩
    obtain ⟨gs, hr, hall⟩ := hgs
    have hstep : (specFlattenIngredients (rj :: rest)).length
        = (((recipeGroups rj).getD []).filterMap
            (fun g => (cookidooIngredientItemFromJson g).toOption)).length
          + (specFlattenIngredients rest).length := by
      simp [specFlattenIngredients]
    rw [hstep, hr, Option.getD_some, filterMap_length_of_shape gs hall, ih hrest]
    simp [hr]

/-- With a uniform group count the summed group counts are the product
of recipe count and group count. -/
theorem sum_groupCounts_uniform (rs : List Json) (g : Nat)
    (hg : ∀ rj ∈ rs, ((recipeGroups rj).getD []).length = g) :
    (rs.map (fun rj => ((recipeGroups rj).getD []).length)).sum = rs.length * g := by
  induction rs with
  | nil => simp
  | cons rj rest ih =>
    simp only [List.map_cons, List.sum_cons, List.length_cons]
    rw [hg rj (by simp), ih (fun rj2 h2 => hg rj2 (by simp [h2]))]
    ring

/-- C7: on a 2xx body whose `recipes` elements each expose a
`recipeIngredientGroups` array of convertible entries,
`get_ingredient_items` returns exactly the two-level flatten in nesting
order (outer recipe order, then inner group order); with `r` recipes of
`g` groups each it yields exactly `r * g` records. -/
theorem claim_C7 (st : ClientState) (r : HttpResponse) (rs : List Json)
    (hs1 : 200 ≤ r.status) (hs2 : r.status < 300)
    (hj : r.json = some (Json.obj [("recipes", Json.arr rs)]))
    (hshape : rs.all recipeShapeOk = true) :
    (getIngredientItems st (Transport.response r)).result =
      PyResult.ok (specFlattenIngredients rs) ∧
    (specFlattenIngredients rs).length
      = (rs.map (fun rj => ((recipeGroups rj).getD []).length)).sum ∧
    ∀ g : Nat, (∀ rj ∈ rs, ((recipeGroups rj).getD []).length = g) →
      (specFlattenIngredients rs).length = rs.length * g := by
  have h401 : ¬(r.status = 401) := by omega
  have hge : ¬(400 ≤ r.status) := by omega
  refine ⟨?_, specFlattenIngredients_length rs hshape, ?_⟩
  · simp [getIngredientItems, apiCall, h401, hge, hj,
      ingredientItemsMapper_eq_spec rs hshape]
  · intro g hg
    rw [specFlattenIngredients_length rs hshape]
    exact sum_groupCounts_uniform rs g hg

/-- An ingredient-group element of the C7 witness body. -/
def exampleIngredientGroup (i : String) : Json :=
  Json.obj [("id", Json.str i), ("name", Json.str i), ("isOwned", Json.bool false)]

/-- The C7 witness body: two recipes of two ingredient groups each. -/
def exampleRecipesBody : List Json :=
  [Json.obj [("recipeIngredientGroups",
      Json.arr [exampleIngredientGroup "g11", exampleIngredientGroup "g12"])],
   Json.obj [("recipeIngredientGroups",
      Json.arr [exampleIngredientGroup "g21", exampleIngredientGroup "g22"])]]

/-- C7 witness: two recipes of two groups each flatten to the spec-side
order-preserving list of exactly 2 * 2 records. -/
theorem claim_C7_witness :
    ((200 : Nat) ≤ 200 ∧ (200 : Nat) < 300 ∧
      (HttpResponse.mk 200 ""
        (some (Json.obj [("recipes", Json.arr exampleRecipesBody)]))).json
        = some (Json.obj [("recipes", Json.arr exampleRecipesBody)]) ∧
      exampleRecipesBody.all recipeShapeOk = true) ∧
    ((getIngredientItems initialState (Transport.response ⟨200, "",
        some (Json.obj [("recipes", Json.arr exampleRecipesBody)])⟩)).result =
      PyResult.ok (specFlattenIngredients exampleRecipesBody) ∧
     (specFlattenIngredients exampleRecipesBody).length =
       (exampleRecipesBody.map (fun rj => ((recipeGroups rj).getD []).length)).sum ∧
     ∀ g : Nat, (∀ rj ∈ exampleRecipesBody, ((recipeGroups rj).getD []).length = g) →
       (specFlattenIngredients exampleRecipesBody).length
         = exampleRecipesBody.length * g) :=
  ⟨⟨by decide, by decide, rfl, by decide⟩,
   claim_C7 initialState
     ⟨200, "", some (Json.obj [("recipes", Json.arr exampleRecipesBody)])⟩
     exampleRecipesBody (by decide) (by decide) rfl (by decide)⟩

/-- Every non-token operation attaches the state's `AUTHORIZATION` header
to the one request it issues, whatever the transport outcome. -/
theorem apiCall_sentHeaders {α : Type} (msgs : EndpointMsgs)
    (mapper : Json → Except PyExc α) (st : ClientState) (t : Transport) :
    (apiCall msgs mapper st t).sentHeaders = [st.apiAuthHeader] := by
  cases t with
  | timeout => rfl
  | clientError => rfl
  | response r =>
    by_cases h401 : r.status = 401
    · cases hj : r.json with
      | none => simp [apiCall, h401, hj]
      | some j =>
        cases hgi : j.getItem "error_description" with
        | ok dd => simp [apiCall, h401, hj, hgi]
        | error e => simp [apiCall, h401, hj, hgi]
    · by_cases hge : 400 ≤ r.status
      · simp [apiCall, h401, hge]
      · cases hj : r.json with
        | none => simp [apiCall, h401, hge, hj]
        | some j =>
          cases hm : mapper j with
          | ok a => simp [apiCall, h401, hge, hj, hm]
          | error e => cases e <;> simp [apiCall, h401, hge, hj, hm]

/-- C8: after any successful grant the stored authorization header is the
capitalized token type, a space and the access token, and a subsequent
`get_additional_items` call attaches exactly that header; with token type
"bearer" and access token "AT" the value is "Bearer AT". -/
theorem claim_C8 (st : ClientState) (now : Int) (t : Transport)
    (d : List (String × Json)) (tt at_ : String)
    (hok : (requestAccessToken st now t).result = PyResult.ok d)
    (htt : dictGet d "token_type" = Except.ok (Json.str tt))
    (hat : dictGet d "access_token" = Except.ok (Json.str at_)) :
    (requestAccessToken st now t).state.apiAuthHeader =
      some (AUTHORIZATION_HEADER (pyCapitalize (pyLower tt)) at_) ∧
    (∀ t2, (getAdditionalItems (requestAccessToken st now t).state t2).sentHeaders =
      [some (AUTHORIZATION_HEADER (pyCapitalize (pyLower tt)) at_)]) ∧
    AUTHORIZATION_HEADER (pyCapitalize (pyLower "bearer")) "AT" = "Bearer AT" := by
  obtain ⟨tt2, at2, exp, nn, h1, h2, h3, h4, h5⟩ :=
    requestAccessToken_ok_inv st now t d hok
  rw [h1] at htt
  rw [h2] at hat
  have htteq : tt2 = tt := by
    simpa using htt
  have hateq : at2 = Json.str at_ := by
    simpa using hat
  have hhead : (requestAccessToken st now t).state.apiAuthHeader =
      some (AUTHORIZATION_HEADER (pyCapitalize (pyLower tt)) at_) := by
    rw [h5]
    simp [htteq, hateq, pyFormatArg]
  refine ⟨hhead, ?_, ?_⟩
  · intro t2
    simp only [getAdditionalItems]
    rw [apiCall_sentHeaders, hhead]
  · decide

/-- C8 witness: the worked-example grant body (token_type "bearer",
access_token "AT"). -/
theorem claim_C8_witness :
    ((requestAccessToken initialState 0
        (Transport.response ⟨200, "", some (Json.obj exampleTokenBody)⟩)).result =
        PyResult.ok exampleTokenBody ∧
      dictGet exampleTokenBody "token_type" = Except.ok (Json.str "bearer") ∧
      dictGet exampleTokenBody "access_token" = Except.ok (Json.str "AT")) ∧
    ((requestAccessToken initialState 0
        (Transport.response ⟨200, "", some (Json.obj exampleTokenBody)⟩)).state.apiAuthHeader =
      some (AUTHORIZATION_HEADER (pyCapitalize (pyLower "bearer")) "AT") ∧
    (∀ t2, (getAdditionalItems (requestAccessToken initialState 0
        (Transport.response ⟨200, "", some (Json.obj exampleTokenBody)⟩)).state t2).sentHeaders =
      [some (AUTHORIZATION_HEADER (pyCapitalize (pyLower "bearer")) "AT")]) ∧
    AUTHORIZATION_HEADER (pyCapitalize (pyLower "bearer")) "AT" = "Bearer AT") :=
  ⟨⟨by decide, by decide, by decide⟩,
   claim_C8 initialState 0
     (Transport.response ⟨200, "", some (Json.obj exampleTokenBody)⟩)
     exampleTokenBody "bearer" "AT" (by decide) (by decide) (by decide)⟩

/-- C9: the claim says the token body is never logged on any 2xx success,
but the source suppresses the body only for status exactly 200: a 201
token response completes the grant successfully AND its body appears in
the debug log. -/
theorem claim_C9_counterexample :
    ((requestAccessToken initialState 0
      (Transport.response ⟨201, "TOKENBODY", some (Json.obj exampleTokenBody)⟩)).result =
      PyResult.ok exampleTokenBody) ∧
    LogEvent.response 201 "TOKENBODY" ∈
      (requestAccessToken initialState 0
        (Transport.response ⟨201, "TOKENBODY", some (Json.obj exampleTokenBody)⟩)).log :=
  ⟨by decide, by decide⟩

/-- C9 (amended): the token-endpoint response body is excluded from the
debug log exactly when the status is 200: on a 200 response every emitted
log event is either the body-less response line or a traceback note, so
the body text is never written. -/
theorem claim_C9 (st : ClientState) (now : Int) (r : HttpResponse)
    (h : r.status = 200) :
    ∀ ev ∈ (requestAccessToken st now (Transport.response r)).log,
      ev = LogEvent.response 200 "" ∨ ev = LogEvent.excTrace := by
  have h401 : ¬(r.status = 401) := by omega
  have h400 : ¬(r.status = 400) := by omega
  have hge : ¬(400 ≤ r.status) := by omega
  cases hj : r.json with
  | none => simp [requestAccessToken, h401, h400, hge, hj, h]
  | some j =>
    cases hitems : j.items with
    | error e => simp [requestAccessToken, h401, h400, hge, hj, hitems, h]
    | ok kvs =>
      cases hset : setAuthData st now (projectAllowlist authResponseAnnotations kvs) with
      | mk st2 oe =>
        cases oe with
        | some e => simp [requestAccessToken, h401, h400, hge, hj, hitems, hset, h]
        | none => simp [requestAccessToken, h401, h400, hge, hj, hitems, hset, h]

/-- C9 witness: a 200 token response with a secret body leaves only the
body-less response line in the log. -/
theorem claim_C9_witness :
    (HttpResponse.mk 200 "SECRET" (some (Json.obj exampleTokenBody))).status = 200 ∧
    ∀ ev ∈ (requestAccessToken initialState 0
        (Transport.response ⟨200, "SECRET", some (Json.obj exampleTokenBody)⟩)).log,
      ev = LogEvent.response 200 "" ∨ ev = LogEvent.excTrace :=
  ⟨rfl, claim_C9 initialState 0 ⟨200, "SECRET", some (Json.obj exampleTokenBody)⟩ rfl⟩

/-- C10: a grant invocation (login or refresh) that raises a library
error leaves the entire session state — auth data, derived authorization
header, absolute expiry — exactly as it was. -/
theorem claim_C10 (st : ClientState) (now : Int) (t : Transport)
    (e e2 : CookidooError) :
    ((login st now t).result = PyResult.raised e → (login st now t).state = st) ∧
    ((refreshToken st now t).result = PyResult.raised e2 →
      (refreshToken st now t).state = st) := by
  constructor
  · intro h1
    exact requestAccessToken_raised_state st now t e h1
  · intro h2
    unfold refreshToken at h2 ⊢
    cases had : st.authData with
    | none => simp
    | some ad =>
      simp only [had] at h2 ⊢
      by_cases hemp : ad.isEmpty
      · simp [hemp]
      · simp only [hemp] at h2 ⊢
        simp only [if_false, Bool.false_eq_true, if_neg] at h2 ⊢
        cases hg : dictGet ad "refresh_token" with
        | error ex => simp only [hg] at h2; simp at h2
        | ok v =>
          simp only [hg] at h2 ⊢
          exact requestAccessToken_raised_state st now t e2 h2

/-- C10 witness: a 401 with unparsable body makes login raise AuthError
and refresh raise ConfigError on the fresh client; each implication of
the atomicity theorem, applied there, gives the state intact. -/
theorem claim_C10_witness :
    ((login initialState 0 (Transport.response ⟨401, "", none⟩)).result =
      PyResult.raised (CookidooError.authError
        "Access token request failed due to authorization failure, please check your email and password or refresh token.") ∧
     (login initialState 0 (Transport.response ⟨401, "", none⟩)).state = initialState) ∧
    ((refreshToken initialState 0 (Transport.response ⟨401, "", none⟩)).result =
      PyResult.raised (CookidooError.configError
        "No auth data available, please log in first") ∧
     (refreshToken initialState 0 (Transport.response ⟨401, "", none⟩)).state = initialState) :=
  ⟨⟨rfl,
    (claim_C10 initialState 0 (Transport.response ⟨401, "", none⟩)
      (CookidooError.authError
        "Access token request failed due to authorization failure, please check your email and password or refresh token.")
      (CookidooError.configError "No auth data available, please log in first")).1 rfl⟩,
   ⟨rfl,
    (claim_C10 initialState 0 (Transport.response ⟨401, "", none⟩)
      (CookidooError.authError
        "Access token request failed due to authorization failure, please check your email and password or refresh token.")
      (CookidooError.configError "No auth data available, please log in first")).2 rfl⟩⟩

end CookidooApi
